import Mathlib

/-
Verification development for the venue-scoring service.

The service ranks commercial venues near a geographic point by a composite
"conversion likelihood" score, and separately identifies same-sector
competitors near a reference venue.  This file gives a shallow embedding of
the core pipeline in Lean 4:

* `MetricCalculator` (app/services/calculator.py): `sigmoid` with its
  clamp, and `calculate_conversion_metric`;
* `haversine_distance` and the ranking pipelines
  (app/services/business_logic.py): radius filter, batched typology lookup
  with dict semantics, metric computation, stable descending sort;
* the response shaping and cache-key construction of the HTTP layer
  (app/main.py) and the TTL cache client (app/core/redis.py);
* the response-model field filtering of the pydantic schemas
  (app/schemas/business.py).

Python floats are embedded as real numbers; fallible arithmetic (division
by zero, `len(None)`) is embedded with `Option`/`Except`; the stateful
cache is embedded as explicit state passing over a timestamped store.
-/

open scoped Classical

namespace Orbidi

/-! ### Metric calculator (app/services/calculator.py) -/

/-- The clamp inside `MetricCalculator.sigmoid`:
`x = max(min(x, 100), -100)`. -/
def clamp (x : ℝ) : ℝ := max (min x 100) (-100)

/-- `MetricCalculator.sigmoid`: `1 / (1 + exp(-x))` after clamping `x`
to `[-100, 100]` to avoid overflow in `math.exp`. -/
noncomputable def sigmoid (x : ℝ) : ℝ :=
  1 / (1 + Real.exp (-(clamp x)))

/-- `MetricCalculator.calculate_conversion_metric`:
normalize `r = rentability/100`, `t = typology_val/1000`,
`p = 1/(1 + distance_m)`, then `sigmoid(0.2*r + 0.4*t + 0.4*p)`. -/
noncomputable def calculate_conversion_metric
    (rentability typology_val distance_m : ℝ) : ℝ :=
  let r := rentability / 100
  let t := typology_val / 1000
  let p := 1 / (1 + distance_m)
  let x := 0.2 * r + 0.4 * t + 0.4 * p
  sigmoid x

/-- Run of `calculate_conversion_metric` as Python executes it: the
proximity step `p = 1 / (1 + distance_m)` raises `ZeroDivisionError`
when `1 + distance_m == 0`, which we embed as `none`; every other real
input produces the value of `calculate_conversion_metric`. -/
noncomputable def calculate_conversion_metric_run
    (rentability typology_val distance_m : ℝ) : Option ℝ :=
  if 1 + distance_m = 0 then none
  else some (calculate_conversion_metric rentability typology_val distance_m)

/-! ### Data model (app/models/business.py, app/models/iae.py) -/

/-- A row of the `businesses` table. -/
structure Business where
  id : String
  name : String
  iae_code : String
  rentability : ℝ
  proximity_to_urban_center_m : ℝ
  latitude : ℝ
  longitude : ℝ

/-- A row of the `iae_categories` table (`valor_tipologia` is an
integer column). -/
structure IAECategory where
  iae_code : String
  valor_tipologia : ℤ

/-- A database snapshot as read by one request. -/
structure DB where
  businesses : List Business
  categories : List IAECategory

/-- The per-venue dict built inside the radius-filter loop of
`get_processed_businesses` (before the `metric` key is added). -/
structure BizData where
  id : String
  name : String
  iae_code : String
  rentability : ℝ
  proximity_to_urban_center_m : ℝ
  distance_from_search_m : ℝ
  lat : ℝ
  lon : ℝ

/-- The same dict after the scoring loop adds the `metric` key. -/
structure Scored where
  id : String
  name : String
  iae_code : String
  rentability : ℝ
  proximity_to_urban_center_m : ℝ
  distance_from_search_m : ℝ
  lat : ℝ
  lon : ℝ
  metric : ℝ

/-! ### Distance engine (haversine_distance in
app/services/business_logic.py) -/

/-- `math.radians`: degrees to radians. -/
noncomputable def radians (deg : ℝ) : ℝ := deg * (Real.pi / 180)

/-- `math.atan2` on the quadrants of the real plane (the signed-zero
distinctions of IEEE floats are not representable in ℝ; the haversine
formula only calls this with both arguments nonnegative). -/
noncomputable def atan2 (y x : ℝ) : ℝ :=
  if 0 < x then Real.arctan (y / x)
  else if x < 0 then
    (if 0 ≤ y then Real.arctan (y / x) + Real.pi
     else Real.arctan (y / x) - Real.pi)
  else (if 0 < y then Real.pi / 2 else if y < 0 then -(Real.pi / 2) else 0)

/-- `haversine_distance`: great-circle distance in meters with Earth
radius 6,371,000 m. -/
noncomputable def haversine_distance (lat1 lon1 lat2 lon2 : ℝ) : ℝ :=
  let R : ℝ := 6371000
  let phi1 := radians lat1
  let phi2 := radians lat2
  let dphi := radians (lat2 - lat1)
  let dlambda := radians (lon2 - lon1)
  let a := Real.sin (dphi / 2) ^ 2
    + Real.cos phi1 * Real.cos phi2 * Real.sin (dlambda / 2) ^ 2
  let c := 2 * atan2 (Real.sqrt a) (Real.sqrt (1 - a))
  R * c

/-! ### Rounding (Python's `round(dist, 2)`) -/

/-- Python's `round` to zero decimals: round half to even. -/
noncomputable def pyRound0 (y : ℝ) : ℤ :=
  if Int.fract y = 1/2 then (if Even ⌊y⌋ then ⌊y⌋ else ⌊y⌋ + 1)
  else round y

/-- Python's `round(x, 2)`: round to 2 decimal places, half to even. -/
noncomputable def round2 (x : ℝ) : ℝ := (pyRound0 (x * 100) : ℝ) / 100

/-! ### Ranking pipeline (app/services/business_logic.py) -/

/-- The radius-filter loop shared by both pipelines: keep every business
whose haversine distance from the query point is `≤ radius` (inclusive),
building the per-venue dict with the distance rounded to 2 decimals. -/
noncomputable def nearby_businesses
    (bs : List Business) (lat lon radius : ℝ) : List BizData :=
  (bs.filter (fun b =>
      decide (haversine_distance lat lon b.latitude b.longitude ≤ radius))).map
    (fun b =>
      { id := b.id
        name := b.name
        iae_code := b.iae_code
        rentability := b.rentability
        proximity_to_urban_center_m := b.proximity_to_urban_center_m
        distance_from_search_m :=
          round2 (haversine_distance lat lon b.latitude b.longitude)
        lat := b.latitude
        lon := b.longitude })

/-- The dict comprehension `{row.iae_code: row.valor_tipologia for row in
result}` over the rows whose code lies in `codes` (the SQL `in_` filter),
read back with `.get(code, 0)`.  With Python dict semantics a later row
with the same code overwrites an earlier one, hence `getLast?`. -/
def iae_map_get (cats : List IAECategory) (codes : List String)
    (code : String) : ℤ :=
  match ((cats.filter (fun r => codes.contains r.iae_code)).filter
      (fun r => r.iae_code == code)).getLast? with
  | some r => r.valor_tipologia
  | none => 0

/-- Lookup of a sector code against the full category table (last match
wins, missing code gives 0). -/
def typologyFor (cats : List IAECategory) (code : String) : ℤ :=
  match (cats.filter (fun r => r.iae_code == code)).getLast? with
  | some r => r.valor_tipologia
  | none => 0

/-- The scoring loop: each surviving candidate gets
`metric = calculate_conversion_metric(rentability, t_val,
proximity_to_urban_center_m)` where `t_val = iae_map.get(iae_code, 0)`
and the map is restricted to the candidate set's own codes. -/
noncomputable def scoreAll (cats : List IAECategory) (nb : List BizData) :
    List Scored :=
  nb.map (fun d =>
    { id := d.id
      name := d.name
      iae_code := d.iae_code
      rentability := d.rentability
      proximity_to_urban_center_m := d.proximity_to_urban_center_m
      distance_from_search_m := d.distance_from_search_m
      lat := d.lat
      lon := d.lon
      metric := calculate_conversion_metric d.rentability
        ((iae_map_get cats (nb.map (fun e => e.iae_code)) d.iae_code : ℤ) : ℝ)
        d.proximity_to_urban_center_m })

/-- Python's `sorted(..., key=lambda x: x["metric"], reverse=True)`:
a stable sort, descending by metric (ties keep their input order). -/
noncomputable def sortByMetricDesc (l : List Scored) : List Scored :=
  l.mergeSort (fun a b => decide (b.metric ≤ a.metric))

/-- `get_processed_businesses`: radius filter, early return on an empty
candidate list, typology lookup, scoring, stable descending sort. -/
noncomputable def get_processed_businesses
    (db : DB) (lat lon radius : ℝ) : List Scored :=
  let nb := nearby_businesses db.businesses lat lon radius
  if nb = [] then [] else sortByMetricDesc (scoreAll db.categories nb)

/-- The candidate query of `get_processed_businesses_by_id`: every
business whose `iae_code` starts with the target's two-character sector
code prefix, excluding the target itself. -/
def competitor_candidates (db : DB) (business_id : String)
    (target : Business) : List Business :=
  db.businesses.filter (fun b =>
    b.iae_code.startsWith (target.iae_code.take 2) && b.id != business_id)

/-- `get_processed_businesses_by_id`: `None` (here `none`) when the
reference venue does not exist, otherwise the same
filter → score → sort pipeline over the same-sector candidates.
(`scalar_one_or_none` is embedded as `find?`; the venue-id uniqueness
invariant makes the two agree.) -/
noncomputable def get_processed_businesses_by_id
    (db : DB) (business_id : String) (lat lon radius : ℝ) :
    Option (List Scored) :=
  match db.businesses.find? (fun b => b.id == business_id) with
  | none => none
  | some target =>
    let nb := nearby_businesses (competitor_candidates db business_id target)
      lat lon radius
    some (if nb = [] then [] else sortByMetricDesc (scoreAll db.categories nb))

/-! ### Competitors endpoint shaping (app/main.py,
`get_business_competitors`) -/

/-- The body of a competitors response. -/
structure CompetitorListResp where
  count : ℕ
  competitors : List Scored

/-- The cache-miss path of the `/businesses/{id}/competitors` handler:
it computes `processed_list` and immediately evaluates
`len(processed_list)`.  When the service returned `None` (venue not
found), `len(None)` raises `TypeError`, embedded as `Except.error`;
there is no not-found branch in the handler. -/
noncomputable def get_business_competitors
    (db : DB) (business_id : String) (lat lon radius : ℝ) :
    Except String CompetitorListResp :=
  match get_processed_businesses_by_id db business_id lat lon radius with
  | none => Except.error "TypeError: object of type NoneType has no len()"
  | some l => Except.ok { count := l.length, competitors := l }

/-! ### Response serialization (app/schemas/business.py) -/

/-- A JSON-ish value appearing in the per-venue dicts. -/
inductive PyVal where
  | str (s : String)
  | num (x : ℝ)
  | coords (lat lon : ℝ)

/-- The per-venue dict as built by the service layer, in insertion
order (`metric` is inserted last by the scoring loop). -/
def scoredDict (s : Scored) : List (String × PyVal) :=
  [("id", PyVal.str s.id),
   ("name", PyVal.str s.name),
   ("iae_code", PyVal.str s.iae_code),
   ("rentability", PyVal.num s.rentability),
   ("proximity_to_urban_center_m", PyVal.num s.proximity_to_urban_center_m),
   ("distance_from_search_m", PyVal.num s.distance_from_search_m),
   ("coordinates", PyVal.coords s.lat s.lon),
   ("metric", PyVal.num s.metric)]

/-- The fields declared on the pydantic `BusinessResponse` model
(`BusinessBase` plus `metric`).  Note that `distance_from_search_m`
is not among them. -/
def businessResponseFields : List String :=
  ["id", "name", "iae_code", "rentability", "proximity_to_urban_center_m",
   "coordinates", "metric"]

/-- FastAPI serialization through `response_model`: only the fields
declared on the model survive; keys absent from the model are dropped. -/
def serializeBusinessResponse (s : Scored) : List (String × PyVal) :=
  (scoredDict s).filter (fun kv => businessResponseFields.contains kv.1)

/-! ### Cache-aside layer (app/core/redis.py and the handler bodies in
app/main.py) -/

/-- The Redis store: each key maps to a value together with its absolute
expiry time (`SET key value EX ttl` stores `now + ttl`). -/
def CacheState (α : Type) : Type := String → Option (α × ℕ)

/-- `RedisClient.get_cache`: the stored payload, provided the entry has
not expired (Redis treats a key whose TTL has elapsed as absent). -/
def get_cache {α : Type} (st : CacheState α) (now : ℕ) (key : String) :
    Option α :=
  match st key with
  | some (v, expiresAt) => if now < expiresAt then some v else none
  | none => none

/-- `RedisClient.set_cache`: store the value under the key with absolute
expiry `now + expire` (the handlers pass `expire=300`, which is also the
client's default TTL). -/
def set_cache {α : Type} (st : CacheState α) (now : ℕ) (key : String)
    (v : α) (expire : ℕ) : CacheState α :=
  fun k => if k = key then some (v, now + expire) else st k

/-- The cache-aside skeleton shared by both handlers: look the key up;
on a hit return the cached payload unchanged (the payload is a nonempty
dict, so Python's `if cached_result:` truthiness test always passes on a
hit); on a miss run the computation, store its result for 300 seconds and
return it.  The boolean records whether the computation ran. -/
def cached_endpoint {α : Type} (st : CacheState α) (now : ℕ) (key : String)
    (computeFn : Unit → α) : α × CacheState α × Bool :=
  match get_cache st now key with
  | some v => (v, st, false)
  | none => (computeFn (), set_cache st now key (computeFn ()) 300, true)

/-! ### Cache keys (app/main.py) -/

/-- The key of the general search handler:
`f"search:{lat}:{lon}:{radius}"`, over the textual renderings of the
request parameters. -/
def search_cache_key (lat lon radius : String) : String :=
  "search:" ++ lat ++ ":" ++ lon ++ ":" ++ radius

/-- The key of the competitors handler:
`f"search:{business_id}:{lat}:{lon}:{radius}"`. -/
def competitors_cache_key (business_id lat lon radius : String) : String :=
  "search:" ++ business_id ++ ":" ++ lat ++ ":" ++ lon ++ ":" ++ radius

/-- The endpoint-kind prefix of a cache key: everything before the first
delimiter. -/
def endpointKind (key : String) : String :=
  { data := key.data.takeWhile (fun c => c != ':') }

/-- A string without the key delimiter.  Python's `str()` of a float or
int never contains a colon, so every rendered numeric parameter
satisfies this. -/
def colonFree (s : String) : Prop := s.data.count ':' = 0

/-! ### Concrete scenario data (the seed rows of app/main.py) -/

/-- Seeded venue `biz_001`. -/
def venueA : Business :=
  { id := "biz_001", name := "Madrid Central Grill", iae_code := "E471.1"
    rentability := 85, proximity_to_urban_center_m := 100
    latitude := 40.4167, longitude := -3.7037 }

/-- Seeded category `E471.1 → 800`. -/
def catE : IAECategory := { iae_code := "E471.1", valor_tipologia := 800 }

/-- A one-venue snapshot of the seeded database. -/
def db1 : DB := { businesses := [venueA], categories := [catE] }

/-- The scored record the pipeline produces for `venueA` when queried
from the venue's own coordinates. -/
noncomputable def scoredA : Scored :=
  { id := "biz_001", name := "Madrid Central Grill", iae_code := "E471.1"
    rentability := 85, proximity_to_urban_center_m := 100
    distance_from_search_m := 0, lat := 40.4167, lon := -3.7037
    metric := calculate_conversion_metric 85 800 100 }

/-- Two scored records with exactly equal metrics (a tie). -/
def tieA : Scored :=
  { id := "biz_002", name := "Retiro Coffee", iae_code := "G651.2"
    rentability := 65, proximity_to_urban_center_m := 200
    distance_from_search_m := 0, lat := 40.4150, lon := -3.6850
    metric := 0.5 }

/-- Second element of the tie, listed after `tieA`. -/
def tieB : Scored :=
  { id := "biz_004", name := "Sol Coffee", iae_code := "G651.4"
    rentability := 62, proximity_to_urban_center_m := 90
    distance_from_search_m := 0, lat := 40.4230, lon := -3.6110
    metric := 0.5 }

/-! ## Proofs -/

/-! ### Basic properties of the calculator -/

lemma sigmoid_pos (x : ℝ) : 0 < sigmoid x := by
  unfold sigmoid
  have h : (0:ℝ) < 1 + Real.exp (-(clamp x)) :=
    lt_add_of_lt_of_nonneg one_pos (Real.exp_pos _).le
  positivity

lemma sigmoid_lt_one (x : ℝ) : sigmoid x < 1 := by
  unfold sigmoid
  have hpos : (0:ℝ) < 1 + Real.exp (-(clamp x)) :=
    lt_add_of_lt_of_nonneg one_pos (Real.exp_pos _).le
  rw [div_lt_one hpos]
  have := Real.exp_pos (-(clamp x))
  linarith

lemma clamp_mono {x y : ℝ} (h : x ≤ y) : clamp x ≤ clamp y :=
  max_le_max (min_le_min h le_rfl) le_rfl

lemma sigmoid_mono {x y : ℝ} (h : x ≤ y) : sigmoid x ≤ sigmoid y := by
  unfold sigmoid
  have hc : clamp x ≤ clamp y := clamp_mono h
  have hexp : Real.exp (-(clamp y)) ≤ Real.exp (-(clamp x)) :=
    Real.exp_le_exp.2 (neg_le_neg hc)
  have hposy : (0:ℝ) < 1 + Real.exp (-(clamp y)) :=
    lt_add_of_lt_of_nonneg one_pos (Real.exp_pos _).le
  exact one_div_le_one_div_of_le hposy (by linarith)

lemma clamp_eq_self {x : ℝ} (h1 : -100 ≤ x) (h2 : x ≤ 100) : clamp x = x := by
  unfold clamp
  rw [min_eq_left h2, max_eq_left h1]

/-! ### C5: the metric is strictly between 0 and 1 -/

/-- C5: for every rentability in `[0,100]`, typology value in `[0,1000]`
and distance `≥ 0`, the computed metric lies strictly between 0 and 1. -/
theorem C5_metric_strictly_between_zero_and_one
    (rentability typology_val distance_m : ℝ)
    (hr0 : 0 ≤ rentability) (hr1 : rentability ≤ 100)
    (ht0 : 0 ≤ typology_val) (ht1 : typology_val ≤ 1000)
    (hd : 0 ≤ distance_m) :
    0 < calculate_conversion_metric rentability typology_val distance_m ∧
      calculate_conversion_metric rentability typology_val distance_m < 1 := by
  unfold calculate_conversion_metric
  exact ⟨sigmoid_pos _, sigmoid_lt_one _⟩

/-- Witness for C5 at the seeded venue (rentability 85, typology 800,
distance 100). -/
theorem C5_metric_strictly_between_zero_and_one_witness :
    0 < calculate_conversion_metric 85 800 100 ∧
      calculate_conversion_metric 85 800 100 < 1 :=
  C5_metric_strictly_between_zero_and_one 85 800 100
    (by norm_num) (by norm_num) (by norm_num) (by norm_num) (by norm_num)

/-! ### C6: monotonicity of the metric -/

/-- C6: holding the other two inputs fixed and within domain, the metric
is monotonically non-decreasing in rentability, non-decreasing in the
typology value, and non-increasing in distance. -/
theorem C6_metric_monotonicity :
    (∀ t d r1 r2 : ℝ, 0 ≤ r1 → r2 ≤ 100 → r1 ≤ r2 →
        0 ≤ t → t ≤ 1000 → 0 ≤ d →
        calculate_conversion_metric r1 t d ≤ calculate_conversion_metric r2 t d)
    ∧ (∀ r d t1 t2 : ℝ, 0 ≤ r → r ≤ 100 → 0 ≤ t1 → t2 ≤ 1000 → t1 ≤ t2 →
        0 ≤ d →
        calculate_conversion_metric r t1 d ≤ calculate_conversion_metric r t2 d)
    ∧ (∀ r t d1 d2 : ℝ, 0 ≤ r → r ≤ 100 → 0 ≤ t → t ≤ 1000 →
        0 ≤ d1 → d1 ≤ d2 →
        calculate_conversion_metric r t d2 ≤ calculate_conversion_metric r t d1) := by
  refine ⟨?_, ?_, ?_⟩
  · intro t d r1 r2 _ _ hr _ _ _
    unfold calculate_conversion_metric
    exact sigmoid_mono (by nlinarith)
  · intro r d t1 t2 _ _ _ _ ht _
    unfold calculate_conversion_metric
    exact sigmoid_mono (by nlinarith)
  · intro r t d1 d2 _ _ _ _ hd1 hd
    unfold calculate_conversion_metric
    have hp : 1 / (1 + d2) ≤ 1 / (1 + d1) :=
      one_div_le_one_div_of_le (by linarith) (by linarith)
    exact sigmoid_mono (by nlinarith)

/-- Witness for C6: all three monotonicity statements instantiated at
concrete in-domain inputs. -/
theorem C6_metric_monotonicity_witness :
    calculate_conversion_metric 65 800 100 ≤ calculate_conversion_metric 85 800 100
    ∧ calculate_conversion_metric 85 450 100 ≤ calculate_conversion_metric 85 800 100
    ∧ calculate_conversion_metric 85 800 200 ≤ calculate_conversion_metric 85 800 100 :=
  ⟨C6_metric_monotonicity.1 800 100 65 85 (by norm_num) (by norm_num)
      (by norm_num) (by norm_num) (by norm_num) (by norm_num),
   C6_metric_monotonicity.2.1 85 100 450 800 (by norm_num) (by norm_num)
      (by norm_num) (by norm_num) (by norm_num) (by norm_num),
   C6_metric_monotonicity.2.2 85 800 100 200 (by norm_num) (by norm_num)
      (by norm_num) (by norm_num) (by norm_num) (by norm_num)⟩

/-! ### C9: crash behavior of the scoring path -/

/-- C9 counterexample: at `distance_m = -1` the proximity step divides by
zero, so the scoring path raises `ZeroDivisionError` instead of returning
a degenerate numeric result — the claim that the scoring path never
raises for any numeric input is false. -/
theorem C9_counterexample_distance_minus_one :
    calculate_conversion_metric_run 85 800 (-1) = none := by
  unfold calculate_conversion_metric_run
  rw [if_pos (by norm_num)]

/-- C9 amended: for every real input whose proximity divisor `1 + distance_m`
is nonzero the scoring path returns a value (no exception), and the
sigmoid's clamp always keeps the exponent within `[-100, 100]`, which is
what prevents overflow in the exponential. -/
theorem C9_no_crash_off_singularity
    (rentability typology_val distance_m : ℝ)
    (hd : 1 + distance_m ≠ 0) :
    calculate_conversion_metric_run rentability typology_val distance_m
      = some (calculate_conversion_metric rentability typology_val distance_m)
    ∧ ∀ x : ℝ, -100 ≤ clamp x ∧ clamp x ≤ 100 := by
  constructor
  · unfold calculate_conversion_metric_run
    rw [if_neg hd]
  · intro x
    exact ⟨le_max_right _ _, max_le (min_le_right _ _) (by norm_num)⟩

/-- Witness for C9 amended: the out-of-domain input `rentability = -50`,
`typology = 2000`, `distance = -0.5` still returns a value. -/
theorem C9_no_crash_off_singularity_witness :
    calculate_conversion_metric_run (-50) 2000 (-0.5)
      = some (calculate_conversion_metric (-50) 2000 (-0.5))
    ∧ ∀ x : ℝ, -100 ≤ clamp x ∧ clamp x ≤ 100 :=
  C9_no_crash_off_singularity (-50) 2000 (-0.5) (by norm_num)

/-! ### C1: the concrete scenario -/

lemma metric_scenario_eq :
    calculate_conversion_metric 85 800 100
      = 1 / (1 + Real.exp (-(4989/10100 : ℝ))) := by
  show sigmoid (0.2 * ((85:ℝ)/100) + 0.4 * ((800:ℝ)/1000)
      + 0.4 * (1/(1+(100:ℝ)))) = _
  rw [show (0.2 * ((85:ℝ)/100) + 0.4 * ((800:ℝ)/1000)
        + 0.4 * (1/(1+(100:ℝ)))) = 4989/10100 by norm_num]
  unfold sigmoid
  rw [clamp_eq_self (by norm_num) (by norm_num)]

lemma exp_scenario_bounds :
    0.61020 < Real.exp (-(4989/10100 : ℝ))
      ∧ Real.exp (-(4989/10100 : ℝ)) < 0.61021 := by
  have hx : |(-(4989/10100 : ℝ))| ≤ 1 := by
    rw [abs_le]
    constructor <;> norm_num
  have hb := @Real.exp_bound (-(4989/10100 : ℝ)) hx 7 (by norm_num)
  have hsum : (∑ m ∈ Finset.range 7,
        (-(4989/10100 : ℝ)) ^ m / (Nat.factorial m : ℝ))
      = 51819701788113101751359129 / 84921612048080000000000000 := by
    simp only [Finset.sum_range_succ, Finset.sum_range_zero, Nat.factorial]
    norm_num
  have herr : |(-(4989/10100 : ℝ))| ^ 7
        * ((Nat.succ 7 : ℝ) / ((Nat.factorial 7 : ℝ) * 7)) ≤ 1 / 564480 := by
    have habs : |(-(4989/10100 : ℝ))| = 4989/10100 := by
      rw [abs_neg, abs_of_pos] <;> norm_num
    rw [habs]
    have hpow : ((4989:ℝ)/10100) ^ 7 ≤ (1/2) ^ 7 := by
      apply pow_le_pow_left₀ (by norm_num) (by norm_num)
    have : ((Nat.succ 7 : ℝ) / ((Nat.factorial 7 : ℝ) * 7)) = 8 / 35280 := by
      norm_num [Nat.factorial]
    rw [this]
    nlinarith [hpow]
  rw [hsum] at hb
  have hb' := abs_le.1 (hb.trans herr)
  constructor <;> [nlinarith [hb'.1]; nlinarith [hb'.2]]

/-- C1: for a venue with rentability 85, typology value 800 and
proximity-to-urban-center 100 m, the calculator produces exactly
`r = 0.85`, `t = 0.8`, `p = 1/101`,
`x = 0.2*0.85 + 0.4*0.8 + 0.4*(1/101)`, and
`metric = sigmoid(x)` which is within `0.0001` of `0.6210`. -/
theorem C1_concrete_scenario_metric :
    (85:ℝ)/100 = 0.85 ∧ (800:ℝ)/1000 = 0.8 ∧ (1:ℝ)/(1+100) = 1/101
    ∧ calculate_conversion_metric 85 800 100
        = sigmoid (0.2 * 0.85 + 0.4 * 0.8 + 0.4 * (1/101))
    ∧ |calculate_conversion_metric 85 800 100 - 0.6210| < 0.0001 := by
  refine ⟨by norm_num, by norm_num, by norm_num, ?_, ?_⟩
  · unfold calculate_conversion_metric
    exact congrArg sigmoid (by norm_num)
  · rw [metric_scenario_eq]
    obtain ⟨hlo, hhi⟩ := exp_scenario_bounds
    have hpos : (0:ℝ) < 1 + Real.exp (-(4989/10100 : ℝ)) := by
      have := Real.exp_pos (-(4989/10100 : ℝ))
      linarith
    have hm1 : (0.6209:ℝ) < 1 / (1 + Real.exp (-(4989/10100 : ℝ))) := by
      rw [lt_div_iff₀ hpos]
      linarith
    have hm2 : 1 / (1 + Real.exp (-(4989/10100 : ℝ))) < (0.6211:ℝ) := by
      rw [div_lt_iff₀ hpos]
      linarith
    rw [abs_lt]
    constructor <;> linarith

/-! ### C4: descending stable sort -/

lemma metricLe_trans : ∀ a b c : Scored,
    decide (b.metric ≤ a.metric) = true →
    decide (c.metric ≤ b.metric) = true →
    decide (c.metric ≤ a.metric) = true := by
  intro a b c hab hbc
  simp only [decide_eq_true_eq] at hab hbc ⊢
  exact le_trans hbc hab

lemma metricLe_total : ∀ a b : Scored,
    (decide (b.metric ≤ a.metric) || decide (a.metric ≤ b.metric)) = true := by
  intro a b
  simp only [Bool.or_eq_true, decide_eq_true_eq]
  exact le_total b.metric a.metric

lemma processed_eq_sort (db : DB) (lat lon radius : ℝ) :
    get_processed_businesses db lat lon radius
      = sortByMetricDesc (scoreAll db.categories
          (nearby_businesses db.businesses lat lon radius)) := by
  show (if nearby_businesses db.businesses lat lon radius = [] then []
      else sortByMetricDesc (scoreAll db.categories
        (nearby_businesses db.businesses lat lon radius)))
    = sortByMetricDesc (scoreAll db.categories
        (nearby_businesses db.businesses lat lon radius))
  by_cases h : nearby_businesses db.businesses lat lon radius = []
  · rw [if_pos h, h]
    simp [sortByMetricDesc, scoreAll, List.mergeSort_nil]
  · rw [if_neg h]

lemma processed_by_id_eq_sort (db : DB) (bid : String) (lat lon radius : ℝ)
    (target : Business)
    (htarget : db.businesses.find? (fun b => b.id == bid) = some target) :
    get_processed_businesses_by_id db bid lat lon radius
      = some (sortByMetricDesc (scoreAll db.categories
          (nearby_businesses (competitor_candidates db bid target)
            lat lon radius))) := by
  unfold get_processed_businesses_by_id
  rw [htarget]
  show some (if nearby_businesses (competitor_candidates db bid target)
        lat lon radius = [] then []
      else sortByMetricDesc (scoreAll db.categories
        (nearby_businesses (competitor_candidates db bid target)
          lat lon radius)))
    = _
  by_cases h : nearby_businesses (competitor_candidates db bid target)
      lat lon radius = []
  · rw [if_pos h, h]
    simp [sortByMetricDesc, scoreAll, List.mergeSort_nil]
  · rw [if_neg h]

/-- C4: the ranking output (of both pipelines) is the stable descending
sort of the scored candidates: it is sorted non-increasingly by metric,
and any two entries with exactly equal metrics keep the relative order
they had in the radius filter's output (the scoring stage is an
order-preserving map of the filter's output). -/
theorem C4_ranking_sorted_descending_stable :
    (∀ l : List Scored,
       List.Sorted (fun a b : Scored => b.metric ≤ a.metric)
         (sortByMetricDesc l)
       ∧ ∀ a b : Scored, a.metric = b.metric → [a, b].Sublist l →
           [a, b].Sublist (sortByMetricDesc l))
    ∧ (∀ (db : DB) (lat lon radius : ℝ),
        get_processed_businesses db lat lon radius
          = sortByMetricDesc (scoreAll db.categories
              (nearby_businesses db.businesses lat lon radius)))
    ∧ (∀ (db : DB) (bid : String) (lat lon radius : ℝ) (target : Business),
        db.businesses.find? (fun b => b.id == bid) = some target →
        get_processed_businesses_by_id db bid lat lon radius
          = some (sortByMetricDesc (scoreAll db.categories
              (nearby_businesses (competitor_candidates db bid target)
                lat lon radius)))) := by
  refine ⟨?_, ?_, ?_⟩
  · intro l
    constructor
    · have h := @List.sorted_mergeSort Scored
        (fun a b : Scored => decide (b.metric ≤ a.metric))
        metricLe_trans metricLe_total l
      unfold sortByMetricDesc
      exact h.imp (fun hab => of_decide_eq_true hab)
    · intro a b heq hsub
      unfold sortByMetricDesc
      apply List.sublist_mergeSort metricLe_trans metricLe_total _ hsub
      refine List.Pairwise.cons ?_ (List.pairwise_singleton _ _)
      intro c hc
      rw [List.mem_singleton] at hc
      subst hc
      exact decide_eq_true heq.symm.le
  · exact processed_eq_sort
  · exact processed_by_id_eq_sort

/-- Witness for C4: a concrete two-element tie keeps its input order in
the sorted output, and the competitor pipeline equation instantiated at
the seeded database. -/
theorem C4_ranking_sorted_descending_stable_witness :
    List.Sorted (fun a b : Scored => b.metric ≤ a.metric)
      (sortByMetricDesc [tieA, tieB])
    ∧ [tieA, tieB].Sublist (sortByMetricDesc [tieA, tieB])
    ∧ get_processed_businesses_by_id db1 "biz_001" 40.4167 (-3.7037) 500
        = some (sortByMetricDesc (scoreAll db1.categories
            (nearby_businesses (competitor_candidates db1 "biz_001" venueA)
              40.4167 (-3.7037) 500))) :=
  ⟨(C4_ranking_sorted_descending_stable.1 [tieA, tieB]).1,
   (C4_ranking_sorted_descending_stable.1 [tieA, tieB]).2 tieA tieB rfl
     (List.Sublist.refl _),
   C4_ranking_sorted_descending_stable.2.2 db1 "biz_001" 40.4167 (-3.7037)
     500 venueA (by rfl)⟩

/-! ### Evaluation of the pipeline on the seeded scenario -/

lemma atan2_zero_one : atan2 0 1 = 0 := by
  unfold atan2
  rw [if_pos one_pos]
  simp [Real.arctan_zero]

lemma haversine_self (lat lon : ℝ) : haversine_distance lat lon lat lon = 0 := by
  show (6371000:ℝ) * (2 * atan2
      (Real.sqrt (Real.sin (radians (lat - lat) / 2) ^ 2
        + Real.cos (radians lat) * Real.cos (radians lat)
          * Real.sin (radians (lon - lon) / 2) ^ 2))
      (Real.sqrt (1 - (Real.sin (radians (lat - lat) / 2) ^ 2
        + Real.cos (radians lat) * Real.cos (radians lat)
          * Real.sin (radians (lon - lon) / 2) ^ 2)))) = 0
  have h0 : radians (lat - lat) = 0 := by
    unfold radians
    rw [sub_self, zero_mul]
  have h1 : radians (lon - lon) = 0 := by
    unfold radians
    rw [sub_self, zero_mul]
  rw [h0, h1]
  norm_num [Real.sin_zero, Real.sqrt_zero, Real.sqrt_one, atan2_zero_one]

lemma round2_zero : round2 0 = 0 := by
  unfold round2 pyRound0
  rw [zero_mul]
  rw [if_neg (by rw [Int.fract_zero]; norm_num)]
  simp

lemma nearby_db1 (radius : ℝ) (h : 0 ≤ radius) :
    nearby_businesses db1.businesses 40.4167 (-3.7037) radius
      = [{ id := "biz_001", name := "Madrid Central Grill",
           iae_code := "E471.1", rentability := 85,
           proximity_to_urban_center_m := 100, distance_from_search_m := 0,
           lat := 40.4167, lon := -3.7037 }] := by
  have hdist : haversine_distance 40.4167 (-3.7037) venueA.latitude
      venueA.longitude = 0 := haversine_self _ _
  have hp : decide (haversine_distance 40.4167 (-3.7037) venueA.latitude
      venueA.longitude ≤ radius) = true :=
    decide_eq_true (by rw [hdist]; exact h)
  unfold nearby_businesses
  rw [show db1.businesses = [venueA] from rfl]
  rw [List.filter_cons, if_pos hp, List.filter_nil, List.map_cons, List.map_nil]
  rw [hdist, round2_zero]
  rfl

lemma scored_db1 :
    sortByMetricDesc (scoreAll db1.categories
        [{ id := "biz_001", name := "Madrid Central Grill",
           iae_code := "E471.1", rentability := 85,
           proximity_to_urban_center_m := 100, distance_from_search_m := 0,
           lat := 40.4167, lon := -3.7037 }])
      = [scoredA] := by
  unfold sortByMetricDesc scoreAll
  rw [List.map_cons, List.map_nil, List.mergeSort_singleton]
  have hc : ((iae_map_get db1.categories ["E471.1"] "E471.1" : ℤ) : ℝ)
      = 800 := by
    rw [show iae_map_get db1.categories ["E471.1"] "E471.1" = 800 from rfl]
    norm_num
  simp only [scoredA]
  rw [show (List.map (fun e : BizData => e.iae_code)
      [{ id := "biz_001", name := "Madrid Central Grill",
         iae_code := "E471.1", rentability := 85,
         proximity_to_urban_center_m := 100, distance_from_search_m := 0,
         lat := 40.4167, lon := -3.7037 }]) = ["E471.1"] from rfl]
  rw [hc]

lemma processed_db1 (radius : ℝ) (h : 0 ≤ radius) :
    get_processed_businesses db1 40.4167 (-3.7037) radius = [scoredA] := by
  rw [processed_eq_sort, nearby_db1 radius h]
  exact scored_db1

/-! ### C2: not-found handling of the competitors endpoint -/

/-- C2: the service layer does signal a missing reference venue as a
distinguished null result (`None`), but the exposed competitors handler
then evaluates `len(None)`, which raises `TypeError` — the endpoint
crashes with a 500 instead of returning a not-found outcome. -/
theorem C2_notfound_crashes_endpoint :
    get_processed_businesses_by_id db1 "biz_999" 40.4167 (-3.7037) 500 = none
    ∧ get_business_competitors db1 "biz_999" 40.4167 (-3.7037) 500
        = Except.error "TypeError: object of type NoneType has no len()" := by
  constructor
  · rfl
  · rfl

/-! ### C3: the distance field of the response -/

/-- C3: the service layer computes `distance_from_search_m` (the
2-decimal-rounded great-circle distance from the query point) and puts
it in each venue dict together with id, name, sector code, rentability,
proximity, coordinates and metric — but the pydantic `BusinessResponse`
model does not declare that field, so FastAPI's response serialization
drops it: the exposed response does not carry
`distance_from_search_m`. -/
theorem C3_response_drops_distance_field :
    get_processed_businesses db1 40.4167 (-3.7037) 500 = [scoredA]
    ∧ scoredA.distance_from_search_m
        = round2 (haversine_distance 40.4167 (-3.7037) 40.4167 (-3.7037))
    ∧ (scoredDict scoredA).lookup "distance_from_search_m"
        = some (PyVal.num scoredA.distance_from_search_m)
    ∧ (serializeBusinessResponse scoredA).lookup "distance_from_search_m"
        = none
    ∧ (serializeBusinessResponse scoredA).map Prod.fst
        = ["id", "name", "iae_code", "rentability",
           "proximity_to_urban_center_m", "coordinates", "metric"] := by
  refine ⟨processed_db1 500 (by norm_num), ?_, rfl, rfl, rfl⟩
  show (0:ℝ) = round2 (haversine_distance 40.4167 (-3.7037) 40.4167 (-3.7037))
  rw [haversine_self, round2_zero]

/-! ### C10: the metric is a function of the venue alone -/

lemma iae_map_get_of_mem (cats : List IAECategory) (codes : List String)
    (code : String) (hc : codes.contains code = true) :
    iae_map_get cats codes code = typologyFor cats code := by
  unfold iae_map_get typologyFor
  rw [List.filter_filter]
  have hfe : cats.filter
        (fun r => (r.iae_code == code) && codes.contains r.iae_code)
      = cats.filter (fun r => r.iae_code == code) := by
    apply List.filter_congr
    intro r _
    cases heq : (r.iae_code == code) with
    | false => simp [heq]
    | true =>
      have hrc : r.iae_code = code := eq_of_beq heq
      have hmem : code ∈ codes := by simpa using hc
      simp [heq, hrc, hmem]
  rw [hfe]

lemma mem_nearby {bs : List Business} {lat lon radius : ℝ} {d : BizData}
    (hd : d ∈ nearby_businesses bs lat lon radius) :
    ∃ b ∈ bs, d.id = b.id ∧ d.iae_code = b.iae_code
      ∧ d.rentability = b.rentability
      ∧ d.proximity_to_urban_center_m = b.proximity_to_urban_center_m := by
  unfold nearby_businesses at hd
  rw [List.mem_map] at hd
  obtain ⟨b, hb, rfl⟩ := hd
  rw [List.mem_filter] at hb
  exact ⟨b, hb.1, rfl, rfl, rfl, rfl⟩

lemma codes_mem {nb : List BizData} {d : BizData} (hd : d ∈ nb) :
    (nb.map (fun e => e.iae_code)).contains d.iae_code = true := by
  simpa using List.mem_map.mpr ⟨d, hd, rfl⟩

lemma mem_sorted_scored {cats : List IAECategory} {nb : List BizData}
    {s : Scored} (hs : s ∈ sortByMetricDesc (scoreAll cats nb)) :
    ∃ d ∈ nb, s.id = d.id
      ∧ s.metric = calculate_conversion_metric d.rentability
          ((typologyFor cats d.iae_code : ℤ) : ℝ)
          d.proximity_to_urban_center_m := by
  unfold sortByMetricDesc at hs
  rw [(List.mergeSort_perm _ _).mem_iff] at hs
  unfold scoreAll at hs
  rw [List.mem_map] at hs
  obtain ⟨d, hdnb, rfl⟩ := hs
  refine ⟨d, hdnb, rfl, ?_⟩
  show calculate_conversion_metric d.rentability
      ((iae_map_get cats (nb.map (fun e => e.iae_code)) d.iae_code : ℤ) : ℝ)
      d.proximity_to_urban_center_m = _
  rw [iae_map_get_of_mem cats _ _ (codes_mem hdnb)]

lemma mem_processed_metric {db : DB} {lat lon radius : ℝ} {s : Scored}
    (hs : s ∈ get_processed_businesses db lat lon radius) :
    ∃ b ∈ db.businesses, s.id = b.id
      ∧ s.metric = calculate_conversion_metric b.rentability
          ((typologyFor db.categories b.iae_code : ℤ) : ℝ)
          b.proximity_to_urban_center_m := by
  rw [processed_eq_sort] at hs
  obtain ⟨d, hdnb, hsid, hsm⟩ := mem_sorted_scored hs
  obtain ⟨b, hbmem, hid, hcode, hrent, hprox⟩ := mem_nearby hdnb
  exact ⟨b, hbmem, hsid.trans hid, by rw [hsm, hcode, hrent, hprox]⟩

lemma mem_processed_by_id_metric {db : DB} {bid : String}
    {lat lon radius : ℝ} {l : List Scored} {s : Scored}
    (hl : get_processed_businesses_by_id db bid lat lon radius = some l)
    (hs : s ∈ l) :
    ∃ b ∈ db.businesses, s.id = b.id
      ∧ s.metric = calculate_conversion_metric b.rentability
          ((typologyFor db.categories b.iae_code : ℤ) : ℝ)
          b.proximity_to_urban_center_m := by
  cases hfind : db.businesses.find? (fun b => b.id == bid) with
  | none =>
    unfold get_processed_businesses_by_id at hl
    rw [hfind] at hl
    exact absurd hl (by simp)
  | some target =>
    rw [processed_by_id_eq_sort db bid lat lon radius target hfind] at hl
    have hleq := Option.some.inj hl
    rw [← hleq] at hs
    obtain ⟨d, hdnb, hsid, hsm⟩ := mem_sorted_scored hs
    obtain ⟨b, hbmem, hid, hcode, hrent, hprox⟩ := mem_nearby hdnb
    have hbdb : b ∈ db.businesses := by
      unfold competitor_candidates at hbmem
      exact (List.mem_filter.1 hbmem).1
    exact ⟨b, hbdb, hsid.trans hid, by rw [hsm, hcode, hrent, hprox]⟩

lemma eq_of_mem_pairwise_id {l : List Business}
    (hp : l.Pairwise (fun a b => a.id ≠ b.id)) {b1 b2 : Business}
    (h1 : b1 ∈ l) (h2 : b2 ∈ l) (hid : b1.id = b2.id) : b1 = b2 := by
  induction l with
  | nil => cases h1
  | cons a t ih =>
    rw [List.pairwise_cons] at hp
    rcases List.mem_cons.1 h1 with rfl | h1t
    · rcases List.mem_cons.1 h2 with rfl | h2t
      · rfl
      · exact absurd hid (hp.1 _ h2t)
    · rcases List.mem_cons.1 h2 with rfl | h2t
      · exact absurd hid.symm (hp.1 _ h1t)
      · exact ih hp.2 h1t h2t

/-- C10: over a database whose venue identifiers are unique, the metric
attached to a venue record is a function only of the venue's stored
attributes (rentability, its sector code's typology value, its
proximity-to-urban-center): any two result entries — from the general
search or the competitor search, with any origin points and radii —
that refer to the same venue carry the same metric. -/
theorem C10_metric_independent_of_query
    (db : DB) (hp : db.businesses.Pairwise (fun a b => a.id ≠ b.id))
    (lat1 lon1 rad1 lat2 lon2 rad2 : ℝ) (s1 s2 : Scored)
    (h1 : s1 ∈ get_processed_businesses db lat1 lon1 rad1
      ∨ ∃ bid l1, get_processed_businesses_by_id db bid lat1 lon1 rad1
          = some l1 ∧ s1 ∈ l1)
    (h2 : s2 ∈ get_processed_businesses db lat2 lon2 rad2
      ∨ ∃ bid l2, get_processed_businesses_by_id db bid lat2 lon2 rad2
          = some l2 ∧ s2 ∈ l2)
    (hid : s1.id = s2.id) : s1.metric = s2.metric := by
  have f1 : ∃ b ∈ db.businesses, s1.id = b.id
      ∧ s1.metric = calculate_conversion_metric b.rentability
          ((typologyFor db.categories b.iae_code : ℤ) : ℝ)
          b.proximity_to_urban_center_m := by
    rcases h1 with h1 | ⟨bid, l1, hl1, hs1⟩
    · exact mem_processed_metric h1
    · exact mem_processed_by_id_metric hl1 hs1
  have f2 : ∃ b ∈ db.businesses, s2.id = b.id
      ∧ s2.metric = calculate_conversion_metric b.rentability
          ((typologyFor db.categories b.iae_code : ℤ) : ℝ)
          b.proximity_to_urban_center_m := by
    rcases h2 with h2 | ⟨bid, l2, hl2, hs2⟩
    · exact mem_processed_metric h2
    · exact mem_processed_by_id_metric hl2 hs2
  obtain ⟨b1, hb1, hid1, hm1⟩ := f1
  obtain ⟨b2, hb2, hid2, hm2⟩ := f2
  have hb : b1 = b2 :=
    eq_of_mem_pairwise_id hp hb1 hb2 (hid1.symm.trans (hid.trans hid2))
  rw [hm1, hm2, hb]

/-- Witness for C10: the seeded venue appears in two searches with
different radii and receives the same metric. -/
theorem C10_metric_independent_of_query_witness :
    scoredA.metric = scoredA.metric :=
  C10_metric_independent_of_query db1 (List.pairwise_singleton _ _)
    40.4167 (-3.7037) 500 40.4167 (-3.7037) 1000 scoredA scoredA
    (Or.inl (by rw [processed_db1 500 (by norm_num)]; exact List.mem_singleton.mpr rfl))
    (Or.inl (by rw [processed_db1 1000 (by norm_num)]; exact List.mem_singleton.mpr rfl))
    rfl

/-! ### C7: cache-aside semantics -/

lemma get_cache_of_entry {α : Type} (st : CacheState α) (now : ℕ)
    (key : String) (v : α) (expiresAt : ℕ) (hstk : st key = some (v, expiresAt))
    (hlt : now < expiresAt) : get_cache st now key = some v := by
  unfold get_cache
  rw [hstk]
  show (if now < expiresAt then some v else none) = some v
  rw [if_pos hlt]

lemma get_set_same {α : Type} (st : CacheState α) (now : ℕ) (key : String)
    (v : α) (ttl later : ℕ) :
    get_cache (set_cache st now key v ttl) later key
      = if later < now + ttl then some v else none := by
  unfold get_cache set_cache
  show (match (if key = key then some (v, now + ttl) else st key) with
    | some (v, expiresAt) => if later < expiresAt then some v else none
    | none => none) = _
  rw [if_pos rfl]

/-- C7: cache-aside behavior of the handlers.  If a non-expired entry
exists under the key, its stored payload is returned, the computation is
not run and the store is unchanged; on a miss (no entry, or entry past
its TTL) the computation runs, its result is stored under the key with
the 300-second TTL and returned, after which lookups before the expiry
time hit and lookups at or after it miss again. -/
theorem C7_cache_aside_semantics {α : Type} (st : CacheState α) (now : ℕ)
    (key : String) (computeFn : Unit → α) :
    (∀ (v : α) (expiresAt : ℕ), st key = some (v, expiresAt) →
        now < expiresAt →
        cached_endpoint st now key computeFn = (v, st, false))
    ∧ (get_cache st now key = none →
        cached_endpoint st now key computeFn
          = (computeFn (), set_cache st now key (computeFn ()) 300, true)
        ∧ (∀ later : ℕ, later < now + 300 →
            get_cache (set_cache st now key (computeFn ()) 300) later key
              = some (computeFn ()))
        ∧ ∀ later : ℕ, now + 300 ≤ later →
            get_cache (set_cache st now key (computeFn ()) 300) later key
              = none) := by
  constructor
  · intro v expiresAt hstk hlt
    unfold cached_endpoint
    rw [get_cache_of_entry st now key v expiresAt hstk hlt]
  · intro hmiss
    refine ⟨?_, ?_, ?_⟩
    · unfold cached_endpoint
      rw [hmiss]
    · intro later hlate
      rw [get_set_same, if_pos hlate]
    · intro later hlate
      rw [get_set_same, if_neg (not_lt.2 hlate)]

/-- Witness for C7: on the empty store, a first call computes (value 7)
and stores it; a lookup at time 100 hits, a lookup at time 300 has
expired; a second call at time 100 returns the cached 7 without running
its (different) computation. -/
theorem C7_cache_aside_semantics_witness :
    cached_endpoint (fun _ => (none : Option (ℕ × ℕ))) 0
        "search:40.4167:-3.7037:500" (fun _ => 7)
      = (7, set_cache (fun _ => none) 0 "search:40.4167:-3.7037:500" 7 300,
          true)
    ∧ get_cache (set_cache (fun _ => (none : Option (ℕ × ℕ))) 0
        "search:40.4167:-3.7037:500" 7 300) 100 "search:40.4167:-3.7037:500"
      = some 7
    ∧ get_cache (set_cache (fun _ => (none : Option (ℕ × ℕ))) 0
        "search:40.4167:-3.7037:500" 7 300) 300 "search:40.4167:-3.7037:500"
      = none
    ∧ cached_endpoint (set_cache (fun _ => (none : Option (ℕ × ℕ))) 0
        "search:40.4167:-3.7037:500" 7 300) 100 "search:40.4167:-3.7037:500"
        (fun _ => 9)
      = (7, set_cache (fun _ => none) 0 "search:40.4167:-3.7037:500" 7 300,
          false) :=
  ⟨((C7_cache_aside_semantics (fun _ => none) 0 "search:40.4167:-3.7037:500"
      (fun _ => 7)).2 rfl).1,
   ((C7_cache_aside_semantics (fun _ => none) 0 "search:40.4167:-3.7037:500"
      (fun _ => 7)).2 rfl).2.1 100 (by norm_num),
   ((C7_cache_aside_semantics (fun _ => none) 0 "search:40.4167:-3.7037:500"
      (fun _ => 7)).2 rfl).2.2 300 (by norm_num),
   (C7_cache_aside_semantics
      (set_cache (fun _ => none) 0 "search:40.4167:-3.7037:500" 7 300) 100
      "search:40.4167:-3.7037:500" (fun _ => 9)).1 7 300 (by rfl)
      (by norm_num)⟩

/-! ### C8: cache-key construction -/

lemma count_colon_search (lat lon radius : String)
    (h1 : colonFree lat) (h2 : colonFree lon) (h3 : colonFree radius) :
    (search_cache_key lat lon radius).data.count ':' = 3 := by
  unfold colonFree at h1 h2 h3
  unfold search_cache_key
  simp only [String.data_append, List.count_append, h1, h2, h3]
  decide

lemma count_colon_competitors (bid lat lon radius : String)
    (h1 : colonFree lat) (h2 : colonFree lon) (h3 : colonFree radius) :
    (competitors_cache_key bid lat lon radius).data.count ':'
      = 4 + bid.data.count ':' := by
  unfold colonFree at h1 h2 h3
  unfold competitors_cache_key
  simp only [String.data_append, List.count_append, h1, h2, h3]
  have hs : ("search:".data.count ':') = 1 := by decide
  have hc : (":".data.count ':') = 1 := by decide
  rw [hs, hc]
  omega

/-- C8 counterexample: both handlers build their keys with the same
endpoint-kind prefix "search" — the competitor key is
`search:{business_id}:{lat}:{lon}:{radius}`, not a key with a distinct
kind — so the two endpoints' keys are not distinguished by their
endpoint kind. -/
theorem C8_counterexample_same_endpoint_kind :
    endpointKind (search_cache_key "40.4167" "-3.7037" "500") = "search"
    ∧ endpointKind
        (competitors_cache_key "biz_001" "40.4167" "-3.7037" "500")
      = "search"
    ∧ endpointKind (search_cache_key "40.4167" "-3.7037" "500")
      = endpointKind
          (competitors_cache_key "biz_001" "40.4167" "-3.7037" "500") := by
  refine ⟨by decide, by decide, by decide⟩

/-- C8 amended: each handler's cache key is the delimited concatenation
of the fixed prefix "search" and its parameters (so identical inputs
give identical keys); the two endpoints share that prefix rather than
being distinguished by it, but their keys still never collide, because
the numeric parameter renderings contain no delimiter and the competitor
key carries the venue identifier as an extra delimited field. -/
theorem C8_cache_key_shape_and_distinctness :
    (∀ lat lon radius : String, search_cache_key lat lon radius
        = "search:" ++ lat ++ ":" ++ lon ++ ":" ++ radius)
    ∧ (∀ bid lat lon radius : String, competitors_cache_key bid lat lon radius
        = "search:" ++ bid ++ ":" ++ lat ++ ":" ++ lon ++ ":" ++ radius)
    ∧ (∀ lat1 lon1 rad1 bid lat2 lon2 rad2 : String,
        colonFree lat1 → colonFree lon1 → colonFree rad1 →
        colonFree lat2 → colonFree lon2 → colonFree rad2 →
        search_cache_key lat1 lon1 rad1
          ≠ competitors_cache_key bid lat2 lon2 rad2) := by
  refine ⟨fun _ _ _ => rfl, fun _ _ _ _ => rfl, ?_⟩
  intro lat1 lon1 rad1 bid lat2 lon2 rad2 h1 h2 h3 h4 h5 h6 heq
  have hcount := congrArg (fun s : String => s.data.count ':') heq
  simp only at hcount
  rw [count_colon_search lat1 lon1 rad1 h1 h2 h3] at hcount
  rw [count_colon_competitors bid lat2 lon2 rad2 h4 h5 h6] at hcount
  omega

/-- Witness for C8 amended: concrete rendered parameters are colon-free
and the two endpoints' keys differ. -/
theorem C8_cache_key_shape_and_distinctness_witness :
    search_cache_key "40.4167" "-3.7037" "500"
      ≠ competitors_cache_key "biz_001" "40.4167" "-3.7037" "500" :=
  C8_cache_key_shape_and_distinctness.2.2 "40.4167" "-3.7037" "500"
    "biz_001" "40.4167" "-3.7037" "500"
    (by unfold colonFree; decide) (by unfold colonFree; decide)
    (by unfold colonFree; decide) (by unfold colonFree; decide)
    (by unfold colonFree; decide) (by unfold colonFree; decide)

end Orbidi
